import Mathlib

/-!
Shallow embedding of the vista-auth session and credential lifecycle
subsystem: the server core (src/server/core.ts), the WebSocket sync
channel (src/client/websocket.ts), the client session storage and the
session-expiry monitor (client hooks/storage modules), together with the
database adapters relevant to sign-out.

Machine integers of the source are modelled as Nat (all timestamps are
nonnegative milliseconds since epoch); JS objects become structures;
fallible operations return Except; the bcrypt and HMAC primitives are
treated as abstract parameters / idealized signatures, since they are
external libraries.
-/

namespace VistaAuth

/-- AuthError from types.ts: code, message, optional statusCode. -/
structure AuthError where
  code : String
  message : String
  statusCode : Option Nat
deriving DecidableEq, Repr

/-- User from types.ts; metadata is an association list of string keys
(the password hash lives under the reserved key "password"). -/
structure User where
  id : String
  email : String
  name : Option String
  roles : List String
  permissions : List String
  metadata : List (String × String)
deriving DecidableEq, Repr

/-- Session from types.ts. Timestamps in milliseconds. -/
structure Session where
  sessionId : String
  userId : String
  user : User
  expiresAt : Nat
  createdAt : Nat
  lastActivity : Nat
deriving DecidableEq, Repr

/-- JWT claim set produced by the core: userId, sessionId, exp and iat in
seconds since epoch. -/
structure TokenPayload where
  userId : String
  sessionId : String
  exp : Nat
  iat : Nat
deriving DecidableEq, Repr

/-- A signed token: the payload together with the secret it was signed
with (idealized HMAC signature: verification succeeds exactly for the
same secret). -/
structure Token where
  payload : TokenPayload
  secret : String
deriving DecidableEq, Repr

/-- SignInCredentials from types.ts. -/
structure SignInCredentials where
  email : String
  password : String
deriving DecidableEq, Repr

/-- SignUpData from types.ts. -/
structure SignUpData where
  email : String
  password : String
  name : Option String
  metadata : List (String × String)
deriving DecidableEq, Repr

/-- AuthResponse from types.ts: success with data, or failure with an
AuthError. -/
inductive AuthResponse (α : Type) where
  | success (data : α)
  | failure (error : AuthError)
deriving DecidableEq, Repr

/-- Lookup of a key in a JS-object-as-association-list. -/
def metaGet (m : List (String × String)) (k : String) : Option String :=
  (m.find? (fun p => p.1 = k)).map (fun p => p.2)

/-- JS object spread override: the result of the spread has value v at
key k and the original values elsewhere. -/
def metaSet (m : List (String × String)) (k v : String) : List (String × String) :=
  (k, v) :: m.filter (fun p => ¬ p.1 = k)

/-- Persistent state behind a database adapter: the users table and the
sessions table (keyed by session id). -/
structure DBState where
  users : List User
  sessions : List (String × Session)
deriving DecidableEq, Repr

/-- findUserByEmail of the adapter interface. -/
def findUserByEmail (db : DBState) (email : String) : Option User :=
  db.users.find? (fun u => u.email = email)

/-- findUserById of the adapter interface. -/
def findUserById (db : DBState) (id : String) : Option User :=
  db.users.find? (fun u => u.id = id)

/-- Behaviour of the adapter's optional deleteSession when the record is
absent: most adapters (Mongo deleteOne, Postgres DELETE, Supabase
delete, Firebase delete) are no-ops on a missing row, while the Prisma
client's delete throws error code P2025 when the record to delete does
not exist (documented Prisma client behaviour; the adapter in
src (createPrismaAdapter) forwards prisma.session.delete directly). -/
inductive DeleteSemantics where
  | noThrow
  | throwIfMissing
deriving DecidableEq, Repr

/-- The error thrown by the Prisma client when deleting a missing
record: it carries code P2025 and a message, and no statusCode. -/
def prismaP2025Error : AuthError :=
  { code := "P2025"
    message := "An operation failed because it depends on one or more records that were required but not found."
    statusCode := none }

/-- A configured database adapter: its state plus which optional session
capabilities it exposes and its delete semantics. -/
structure Adapter where
  db : DBState
  hasCreateSession : Bool
  hasDeleteSession : Bool
  deleteSem : DeleteSemantics
deriving DecidableEq, Repr

/-- Run the adapter's deleteSession: every shipped adapter removes the
row; under throwIfMissing semantics (Prisma) a missing row raises. -/
def runDeleteSession (sem : DeleteSemantics) (db : DBState) (sid : String) :
    Except AuthError DBState :=
  match sem with
  | .noThrow => .ok { db with sessions := db.sessions.filter (fun p => ¬ p.1 = sid) }
  | .throwIfMissing =>
      if (db.sessions.find? (fun p => p.1 = sid)).isSome then
        .ok { db with sessions := db.sessions.filter (fun p => ¬ p.1 = sid) }
      else
        .error prismaP2025Error

/-- Resolved server configuration (the Required pick in core.ts). -/
structure AuthConfigR where
  bcryptRounds : Nat
  jwtSecret : String
  sessionDuration : Nat
  database : Option Adapter
deriving DecidableEq, Repr

/-- createError of core.ts. -/
def createError (code message : String) (statusCode : Nat) : AuthError :=
  { code := code, message := message, statusCode := some statusCode }

/-- normalizeError of core.ts: an error that already carries a truthy
code and message is passed through unchanged, anything else becomes
INTERNAL_ERROR 500. -/
def normalizeError (e : AuthError) : AuthError :=
  if ¬ e.code = "" ∧ ¬ e.message = "" then e
  else createError "INTERNAL_ERROR" "An unexpected error occurred" 500

/-- generateToken of core.ts: jwt.sign with the configured secret. -/
def generateToken (secret : String) (p : TokenPayload) : Token :=
  { payload := p, secret := secret }

/-- verifyToken of core.ts: jwt.verify with the configured secret,
returning none instead of throwing on any signature or expiry failure.
jsonwebtoken treats a token as expired once floor(now / 1000) reaches
the exp claim. -/
def verifyToken (secret : String) (nowMs : Nat) (t : Token) : Option TokenPayload :=
  if t.secret = secret ∧ nowMs / 1000 < t.payload.exp then some t.payload else none

/-- sanitizeUser of core.ts: strip the password key out of metadata. -/
def sanitizeUser (u : User) : User :=
  { u with metadata := u.metadata.filter (fun p => ¬ p.1 = "password") }

/-- createSession of core.ts: fresh session id, createdAt = lastActivity
= now, expiresAt = now + sessionDuration; when the adapter exposes
createSession the record is stored, and every shipped adapter returns
the passed sessionData unchanged. -/
def createSession (cfg : AuthConfigR) (a : Adapter) (userId : String) (user : User)
    (sid : String) (now : Nat) : Session × Adapter :=
  let session : Session :=
    { sessionId := sid, userId := userId, user := user
      expiresAt := now + cfg.sessionDuration, createdAt := now, lastActivity := now }
  if a.hasCreateSession then
    (session, { a with db := { a.db with sessions := a.db.sessions ++ [(sid, session)] } })
  else
    (session, a)

/-- Success payload of signUp / signIn. -/
structure SignUpOut where
  user : User
  token : Token
  session : Session
deriving DecidableEq, Repr

/-- signUp of core.ts. The nondeterministic inputs of the original
(nanoid for the user id and session id, Date.now) are passed in
explicitly as uid, sid and now; hash is the bcrypt.hash oracle for this
call. Returns the response and the adapter state after the call. -/
def signUp (cfg : AuthConfigR) (hash : String → String) (uid sid : String) (now : Nat)
    (data : SignUpData) : AuthResponse SignUpOut × Option Adapter :=
  match cfg.database with
  | none => (.failure (createError "NO_DATABASE" "Database adapter not configured" 500), none)
  | some a =>
      match findUserByEmail a.db data.email with
      | some _ =>
          (.failure (createError "USER_EXISTS" "User with this email already exists" 400),
           some a)
      | none =>
          let hashedPassword := hash data.password
          let newUser : User :=
            { id := uid, email := data.email, name := data.name
              roles := ["user"], permissions := []
              metadata := metaSet data.metadata "password" hashedPassword }
          let a1 : Adapter := { a with db := { a.db with users := a.db.users ++ [newUser] } }
          let userWithoutPassword := sanitizeUser newUser
          let sa := createSession cfg a1 newUser.id userWithoutPassword sid now
          let token := generateToken cfg.jwtSecret
            { userId := newUser.id, sessionId := sa.1.sessionId
              exp := sa.1.expiresAt / 1000, iat := sa.1.createdAt / 1000 }
          (.success { user := userWithoutPassword, token := token, session := sa.1 },
           some sa.2)

/-- signIn of core.ts. verify is the bcrypt.compare oracle; sid and now
are the nondeterministic inputs of the session creation. A missing or
falsy (empty) stored hash is the defensive NO_PASSWORD path. -/
def signIn (cfg : AuthConfigR) (verify : String → String → Bool) (sid : String) (now : Nat)
    (credentials : SignInCredentials) : AuthResponse SignUpOut × Option Adapter :=
  match cfg.database with
  | none => (.failure (createError "NO_DATABASE" "Database adapter not configured" 500), none)
  | some a =>
      match findUserByEmail a.db credentials.email with
      | none => (.failure (createError "INVALID_CREDENTIALS" "Invalid email or password" 401),
                 some a)
      | some user =>
          match metaGet user.metadata "password" with
          | none => (.failure (createError "NO_PASSWORD" "User has no password set" 500), some a)
          | some passwordHash =>
              if passwordHash = "" then
                (.failure (createError "NO_PASSWORD" "User has no password set" 500), some a)
              else if verify credentials.password passwordHash then
                let userWithoutPassword := sanitizeUser user
                let sa := createSession cfg a user.id userWithoutPassword sid now
                let token := generateToken cfg.jwtSecret
                  { userId := user.id, sessionId := sa.1.sessionId
                    exp := sa.1.expiresAt / 1000, iat := sa.1.createdAt / 1000 }
                (.success { user := userWithoutPassword, token := token, session := sa.1 },
                 some sa.2)
              else
                (.failure (createError "INVALID_CREDENTIALS" "Invalid email or password" 401),
                 some a)

/-- getSession of core.ts: verify the token first, then require a
database, then look the user up; on success the Session is rebuilt from
the token claims plus the fresh user lookup, with lastActivity = now. -/
def getSession (cfg : AuthConfigR) (now : Nat) (t : Token) : AuthResponse Session :=
  match verifyToken cfg.jwtSecret now t with
  | none => .failure (createError "INVALID_TOKEN" "Invalid or expired token" 401)
  | some payload =>
      match cfg.database with
      | none => .failure (createError "NO_DATABASE" "Database adapter not configured" 500)
      | some a =>
          match findUserById a.db payload.userId with
          | none => .failure (createError "USER_NOT_FOUND" "User not found" 404)
          | some user =>
              .success
                { sessionId := payload.sessionId, userId := user.id
                  user := sanitizeUser user
                  expiresAt := payload.exp * 1000, createdAt := payload.iat * 1000
                  lastActivity := now }

/-- signOut of core.ts: when the adapter exposes deleteSession it is
awaited inside the try block, so an adapter throw is caught and
normalized; otherwise (or with no adapter at all) it succeeds without
touching anything. -/
def signOut (cfg : AuthConfigR) (sid : String) : AuthResponse Unit × Option Adapter :=
  match cfg.database with
  | none => (.success (), none)
  | some a =>
      if a.hasDeleteSession then
        match runDeleteSession a.deleteSem a.db sid with
        | .ok db2 => (.success (), some { a with db := db2 })
        | .error e => (.failure (normalizeError e), some a)
      else
        (.success (), some a)

/-! WebSocketSync (src/client/websocket.ts), modelled as an event-step
machine. The mutable fields of the class are the state; the browser
events (socket open, socket close, explicit connect and disconnect
calls) are the steps. ws.close() inside disconnect makes the still
attached onclose handler fire later, which the closePending flag
records; scheduled collects the delays of the reconnect timers that
attemptReconnect registers via setTimeout. -/

/-- maxReconnectAttempts field of WebSocketSync. -/
def maxReconnectAttempts : Nat := 5

/-- reconnectDelay field of WebSocketSync (the backoff base, ms). -/
def reconnectDelay : Nat := 1000

/-- Mutable state of a WebSocketSync instance plus the pending timers
and the pending close event of the environment. -/
structure WSState where
  wsAlive : Bool
  closePending : Bool
  reconnectAttempts : Nat
  scheduled : List Nat
deriving DecidableEq, Repr

/-- A freshly constructed WebSocketSync. -/
def wsInit : WSState :=
  { wsAlive := false, closePending := false, reconnectAttempts := 0, scheduled := [] }

/-- attemptReconnect of websocket.ts: once the counter has reached the
maximum nothing is scheduled; otherwise the counter is incremented and
a timer of reconnectDelay * 2 ^ (newAttempts - 1) ms is registered. -/
def attemptReconnect (s : WSState) : WSState :=
  if s.reconnectAttempts ≥ maxReconnectAttempts then s
  else
    { s with reconnectAttempts := s.reconnectAttempts + 1
             scheduled := s.scheduled ++ [reconnectDelay * 2 ^ s.reconnectAttempts] }

/-- Events acting on a WebSocketSync: an explicit connect(token) call
(directly or from a fired timer), the socket open handler, the socket
close handler, and an explicit disconnect() call. -/
inductive WSEvent where
  | connectCall
  | socketOpen
  | socketClose
  | userDisconnect
deriving DecidableEq, Repr

/-- One step of the machine. connect creates a live socket; onopen
resets the attempt counter; onclose runs attemptReconnect (the handler
fires whenever a live or force-closed socket closes, and stays attached
after disconnect nulls this.ws); disconnect force-closes the socket
(queueing its close event), nulls the reference and zeroes the attempt
counter. -/
def wsStep (s : WSState) : WSEvent → WSState
  | .connectCall => { s with wsAlive := true }
  | .socketOpen => { s with reconnectAttempts := 0 }
  | .socketClose =>
      if s.wsAlive || s.closePending then
        attemptReconnect { s with wsAlive := false, closePending := false }
      else s
  | .userDisconnect =>
      { s with wsAlive := false
               closePending := s.closePending || s.wsAlive
               reconnectAttempts := 0 }

/-- Run a sequence of events. -/
def wsRun (s : WSState) (es : List WSEvent) : WSState :=
  es.foldl wsStep s

/-- A connection attempt that closes without ever opening, repeated n
times: each timer-driven (or initial) connect is followed by the close
handler firing. -/
def failTrace (n : Nat) : List WSEvent :=
  (List.replicate n [WSEvent.connectCall, WSEvent.socketClose]).flatten

/-! Session expiry monitor (AuthProvider in the client hooks module):
setInterval(checkExpiry, 60000) while a session is present; checkExpiry
fires sign-out and onSessionExpired when Date.now() has reached
session.expiresAt, after which the session is cleared, the effect
re-runs and the interval is torn down, so the check cannot fire again. -/

/-- Interval of the expiry check in ms (hard-coded 60000 in the hook). -/
def monitorCheckInterval : Nat := 60000

/-- checkExpiry condition of the hook: Date.now() >= expiresAt. -/
def checkExpiry (expiresAt now : Nat) : Bool :=
  expiresAt ≤ now

/-- Times at which the expiry callback fires, given the tick times of
the interval in order: the first tick at which the session is expired
fires, and the firing clears the session, stopping the interval. -/
def monitorFires (expiresAt : Nat) : List Nat → List Nat
  | [] => []
  | t :: ts => if checkExpiry expiresAt t then [t] else monitorFires expiresAt ts

/-- Tick times of a setInterval of period monitorCheckInterval armed at
createdAt, up to and including the horizon. -/
def monitorTicks (createdAt horizon : Nat) : List Nat :=
  (List.range ((horizon - createdAt) / monitorCheckInterval)).map
    (fun i => createdAt + (i + 1) * monitorCheckInterval)

/-- Fire times of the monitor for a session created at createdAt with
the given expiresAt, observed up to the horizon. -/
def monitorFireTimes (createdAt expiresAt horizon : Nat) : List Nat :=
  monitorFires expiresAt (monitorTicks createdAt horizon)

/-! SessionStorage (client storage module). Only what the transactional
(IndexedDB) backend claims need: the environment says whether
indexedDB.open succeeds and what the three stores hold; reads either
return an Option String or, for the async IndexedDB path, an Except
that propagates the open failure, exactly as the promise chain does. -/

/-- Storage backend chosen at construction (cookie is coerced to
localStorage by the constructor). -/
inductive StorageKind where
  | localStorageKind
  | sessionStorageKind
  | indexedDBKind
deriving DecidableEq, Repr

/-- Browser-side storage environment. -/
structure StorageEnv where
  idbOpenOk : Bool
  idbStore : Option String
  localStore : Option String
  sessionStore : Option String
deriving DecidableEq, Repr

/-- Instance state of SessionStorage: backend kind and whether this.db
holds an open IndexedDB connection. -/
structure StorageState where
  kind : StorageKind
  dbOpen : Bool
deriving DecidableEq, Repr

/-- initIndexedDB: resolves with the connection stored in this.db, or
rejects with the open error. -/
def initIndexedDB (env : StorageEnv) (st : StorageState) : Except String StorageState :=
  if env.idbOpenOk then .ok { st with dbOpen := true } else .error "indexedDB open failed"

/-- getToken (synchronous): on the IndexedDB backend it falls back to
localStorage; otherwise it reads the selected web storage. -/
def getToken (env : StorageEnv) (st : StorageState) : Option String :=
  match st.kind with
  | .indexedDBKind => env.localStore
  | .localStorageKind => env.localStore
  | .sessionStorageKind => env.sessionStore

/-- getIndexedDBToken: if this.db is not set it awaits initIndexedDB
(whose rejection propagates, there is no catch), then reads the store. -/
def getIndexedDBToken (env : StorageEnv) (st : StorageState) :
    Except String (Option String) :=
  if st.dbOpen then .ok env.idbStore
  else
    match initIndexedDB env st with
    | .ok _ => .ok env.idbStore
    | .error e => .error e

/-- getTokenAsync: IndexedDB path goes through getIndexedDBToken, other
backends through the synchronous getToken. -/
def getTokenAsync (env : StorageEnv) (st : StorageState) :
    Except String (Option String) :=
  match st.kind with
  | .indexedDBKind => getIndexedDBToken env st
  | _ => .ok (getToken env st)

/-! Helper lemmas. -/

/-- Sanitization removes the reserved password key from metadata. -/
theorem metaGet_sanitizeUser (u : User) :
    metaGet (sanitizeUser u).metadata "password" = none := by
  have h : (u.metadata.filter (fun p => ¬ p.1 = "password")).find?
      (fun p => p.1 = "password") = none := by
    rw [List.find?_eq_none]
    intro x hx
    simp only [List.mem_filter, decide_not] at hx
    simpa using hx.2
  simp [sanitizeUser, metaGet, h]

/-- Error used by both sign-in failure paths. -/
def invalidCredentialsError : AuthError :=
  createError "INVALID_CREDENTIALS" "Invalid email or password" 401

/-! Claim C1. -/

/-- C1: for an AuthCore configured with a database, signIn fails with
the very same INVALID_CREDENTIALS error both when no user exists for
the email and when a user exists (with a stored hash) but password
verification fails, so the two failure paths are indistinguishable to
the caller. -/
theorem signIn_invalid_credentials_indistinguishable
    (cfg : AuthConfigR) (a : Adapter) (verify : String → String → Bool)
    (sid1 sid2 : String) (now1 now2 : Nat)
    (c1 c2 : SignInCredentials) (u : User) (ph : String)
    (hdb : cfg.database = some a)
    (h1 : findUserByEmail a.db c1.email = none)
    (h2 : findUserByEmail a.db c2.email = some u)
    (hph : metaGet u.metadata "password" = some ph)
    (hne : ¬ ph = "")
    (hv : verify c2.password ph = false) :
    signIn cfg verify sid1 now1 c1 = (.failure invalidCredentialsError, some a) ∧
    signIn cfg verify sid2 now2 c2 = (.failure invalidCredentialsError, some a) := by
  constructor
  · simp [signIn, hdb, h1, invalidCredentialsError]
  · simp [signIn, hdb, h2, hph, hne, hv, invalidCredentialsError]

/-- Fixture: a store holding one user with a bcrypt hash on file. -/
def c1User : User :=
  { id := "u1", email := "real@x.com", name := none, roles := ["user"]
    permissions := [], metadata := [("password", "HASH")] }

/-- Fixture adapter for the enumeration scenario. -/
def c1Adapter : Adapter :=
  { db := { users := [c1User], sessions := [] }
    hasCreateSession := false, hasDeleteSession := false, deleteSem := .noThrow }

/-- Fixture config for the enumeration scenario. -/
def c1Cfg : AuthConfigR :=
  { bcryptRounds := 10, jwtSecret := "sec", sessionDuration := 604800000
    database := some c1Adapter }

/-- Witness for C1: the spec scenario, unknown email vs wrong password,
with a verify oracle rejecting the wrong password. -/
theorem signIn_invalid_credentials_indistinguishable_witness :
    signIn c1Cfg (fun _ _ => false) "sA" 0 { email := "unknown@x.com", password := "x" } =
      (.failure invalidCredentialsError, some c1Adapter) ∧
    signIn c1Cfg (fun _ _ => false) "sB" 0 { email := "real@x.com", password := "wrong" } =
      (.failure invalidCredentialsError, some c1Adapter) :=
  signIn_invalid_credentials_indistinguishable c1Cfg c1Adapter (fun _ _ => false)
    "sA" "sB" 0 0 { email := "unknown@x.com", password := "x" }
    { email := "real@x.com", password := "wrong" } c1User "HASH"
    rfl rfl rfl rfl (by decide) rfl

/-! Claim C2. -/

/-- Fixture adapter with an empty store. -/
def c2Adapter : Adapter :=
  { db := { users := [], sessions := [] }
    hasCreateSession := false, hasDeleteSession := false, deleteSem := .noThrow }

/-- Fixture config with a 1000 ms session duration. -/
def c2Cfg : AuthConfigR :=
  { bcryptRounds := 10, jwtSecret := "sec", sessionDuration := 1000
    database := some c2Adapter }

/-- Fixture sign-up data. -/
def c2Data : SignUpData :=
  { email := "a@b.com", password := "secret123", name := some "A", metadata := [] }

/-- Fixture hash oracle. -/
def c2Hash : String → String := fun p => String.append p "HASH"

/-- Fixture run: a sign-up performed at now = 500 ms. -/
def c2Run : AuthResponse SignUpOut × Option Adapter :=
  signUp c2Cfg c2Hash "u1" "s1" 500 c2Data

/-- Claims of the returned token, scaled back to ms, of a sign-up
response (none on failure). -/
def tokenClaimTimes : AuthResponse SignUpOut → Option (Nat × Nat)
  | .success o => some (o.token.payload.exp * 1000, o.token.payload.iat * 1000)
  | .failure _ => none

/-- Session timestamps of a sign-up response (none on failure). -/
def sessionTimes : AuthResponse SignUpOut → Option (Nat × Nat)
  | .success o => some (o.session.expiresAt, o.session.createdAt)
  | .failure _ => none

/-- Counterexample to C2 as stated: a successful sign-up at now = 500
ms with sessionDuration = 1000 ms yields exp * 1000 = 1000 but
expiresAt = 1500, and iat * 1000 = 0 but createdAt = 500. -/
theorem token_session_lockstep_counterexample :
    (sessionTimes c2Run.1).isSome = true ∧
    tokenClaimTimes c2Run.1 = some (1000, 0) ∧
    sessionTimes c2Run.1 = some (1500, 500) ∧
    tokenClaimTimes c2Run.1 ≠ sessionTimes c2Run.1 := by
  refine ⟨rfl, rfl, rfl, by decide⟩

/-- C2 amended: for every successful signUp or signIn the token claims
are the floor of the session timestamps in seconds, exp = expiresAt /
1000 and iat = createdAt / 1000 (exact ms equality exp * 1000 =
expiresAt holds only when the timestamps are multiples of 1000 ms). -/
theorem token_session_lockstep_seconds :
    (∀ (cfg : AuthConfigR) (hash : String → String) (uid sid : String) (now : Nat)
       (data : SignUpData) (out : SignUpOut) (rest : Option Adapter),
       signUp cfg hash uid sid now data = (.success out, rest) →
       out.token.payload.exp = out.session.expiresAt / 1000 ∧
       out.token.payload.iat = out.session.createdAt / 1000) ∧
    (∀ (cfg : AuthConfigR) (verify : String → String → Bool) (sid : String) (now : Nat)
       (credentials : SignInCredentials) (out : SignUpOut) (rest : Option Adapter),
       signIn cfg verify sid now credentials = (.success out, rest) →
       out.token.payload.exp = out.session.expiresAt / 1000 ∧
       out.token.payload.iat = out.session.createdAt / 1000) := by
  constructor
  · intro cfg hash uid sid now data out rest h
    unfold signUp at h
    split at h
    · simp at h
    · split at h
      · simp at h
      · simp only [Prod.mk.injEq, AuthResponse.success.injEq] at h
        obtain ⟨h1, _⟩ := h
        subst h1
        exact ⟨rfl, rfl⟩
  · intro cfg verify sid now credentials out rest h
    unfold signIn at h
    split at h
    · simp at h
    · split at h
      · simp at h
      · split at h
        · simp at h
        · split at h
          · simp at h
          · split at h
            · simp only [Prod.mk.injEq, AuthResponse.success.injEq] at h
              obtain ⟨h1, _⟩ := h
              subst h1
              exact ⟨rfl, rfl⟩
            · simp at h

/-- Fixture: the explicit success payload of the c2Run sign-up. -/
def c2Out : SignUpOut :=
  { user := { id := "u1", email := "a@b.com", name := some "A", roles := ["user"]
              permissions := [], metadata := [] }
    token := { payload := { userId := "u1", sessionId := "s1", exp := 1, iat := 0 }
               secret := "sec" }
    session := { sessionId := "s1", userId := "u1"
                 user := { id := "u1", email := "a@b.com", name := some "A"
                           roles := ["user"], permissions := [], metadata := [] }
                 expiresAt := 1500, createdAt := 500, lastActivity := 500 } }

/-- Fixture: the adapter state after the c2Run sign-up. -/
def c2AdapterAfter : Adapter :=
  { db := { users := [{ id := "u1", email := "a@b.com", name := some "A"
                        roles := ["user"], permissions := []
                        metadata := [("password", "secret123HASH")] }]
            sessions := [] }
    hasCreateSession := false, hasDeleteSession := false, deleteSem := .noThrow }

/-- Witness for the amended C2 at the concrete c2Run sign-up. -/
theorem token_session_lockstep_seconds_witness :
    c2Out.token.payload.exp = c2Out.session.expiresAt / 1000 ∧
    c2Out.token.payload.iat = c2Out.session.createdAt / 1000 :=
  token_session_lockstep_seconds.1 c2Cfg c2Hash "u1" "s1" 500 c2Data c2Out
    (some c2AdapterAfter) (by decide)

/-! Claim C3. -/

/-- Shape of the session built by createSession, before any adapter
persistence (every shipped adapter returns sessionData unchanged). -/
theorem createSession_fst (cfg : AuthConfigR) (a : Adapter) (userId : String)
    (user : User) (sid : String) (now : Nat) :
    (createSession cfg a userId user sid now).1 =
      { sessionId := sid, userId := userId, user := user
        expiresAt := now + cfg.sessionDuration, createdAt := now, lastActivity := now } := by
  simp only [createSession]
  split <;> rfl

/-- C3: every success response of signUp, signIn and getSession carries
a user object, including the user snapshot inside the returned session,
whose metadata has no entry under the reserved password key. -/
theorem success_responses_sanitized :
    (∀ (cfg : AuthConfigR) (hash : String → String) (uid sid : String) (now : Nat)
       (data : SignUpData) (out : SignUpOut) (rest : Option Adapter),
       signUp cfg hash uid sid now data = (.success out, rest) →
       metaGet out.user.metadata "password" = none ∧
       metaGet out.session.user.metadata "password" = none) ∧
    (∀ (cfg : AuthConfigR) (verify : String → String → Bool) (sid : String) (now : Nat)
       (credentials : SignInCredentials) (out : SignUpOut) (rest : Option Adapter),
       signIn cfg verify sid now credentials = (.success out, rest) →
       metaGet out.user.metadata "password" = none ∧
       metaGet out.session.user.metadata "password" = none) ∧
    (∀ (cfg : AuthConfigR) (now : Nat) (t : Token) (sess : Session),
       getSession cfg now t = .success sess →
       metaGet sess.user.metadata "password" = none) := by
  refine ⟨?_, ?_, ?_⟩
  · intro cfg hash uid sid now data out rest h
    unfold signUp at h
    split at h
    · simp at h
    · split at h
      · simp at h
      · simp only [Prod.mk.injEq, AuthResponse.success.injEq] at h
        obtain ⟨h1, _⟩ := h
        subst h1
        refine ⟨metaGet_sanitizeUser _, ?_⟩
        rw [createSession_fst]
        exact metaGet_sanitizeUser _
  · intro cfg verify sid now credentials out rest h
    unfold signIn at h
    split at h
    · simp at h
    · split at h
      · simp at h
      · split at h
        · simp at h
        · split at h
          · simp at h
          · split at h
            · simp only [Prod.mk.injEq, AuthResponse.success.injEq] at h
              obtain ⟨h1, _⟩ := h
              subst h1
              refine ⟨metaGet_sanitizeUser _, ?_⟩
              rw [createSession_fst]
              exact metaGet_sanitizeUser _
            · simp at h
  · intro cfg now t sess h
    unfold getSession at h
    split at h
    · simp at h
    · split at h
      · simp at h
      · split at h
        · simp at h
        · simp only [AuthResponse.success.injEq] at h
          subst h
          exact metaGet_sanitizeUser _

/-- Fixture: the sanitized view of c1User. -/
def c1UserClean : User :=
  { id := "u1", email := "real@x.com", name := none, roles := ["user"]
    permissions := [], metadata := [] }

/-- Fixture: the success payload of a sign-in against c1Cfg at now =
2500 ms with session id s3 and an accepting verify oracle. -/
def c3SignInOut : SignUpOut :=
  { user := c1UserClean
    token := { payload := { userId := "u1", sessionId := "s3", exp := 604802, iat := 2 }
               secret := "sec" }
    session := { sessionId := "s3", userId := "u1", user := c1UserClean
                 expiresAt := 604802500, createdAt := 2500, lastActivity := 2500 } }

/-- Fixture: a token signed with the c1Cfg secret, valid at 5000 ms. -/
def c3Token : Token :=
  { payload := { userId := "u1", sessionId := "s9", exp := 100, iat := 0 }
    secret := "sec" }

/-- Fixture: the session getSession rebuilds from c3Token at 5000 ms. -/
def c3Sess : Session :=
  { sessionId := "s9", userId := "u1", user := c1UserClean
    expiresAt := 100000, createdAt := 0, lastActivity := 5000 }

/-- Witness for C3 at concrete successful signUp, signIn and getSession
runs. -/
theorem success_responses_sanitized_witness :
    (metaGet c2Out.user.metadata "password" = none ∧
     metaGet c2Out.session.user.metadata "password" = none) ∧
    (metaGet c3SignInOut.user.metadata "password" = none ∧
     metaGet c3SignInOut.session.user.metadata "password" = none) ∧
    metaGet c3Sess.user.metadata "password" = none :=
  ⟨success_responses_sanitized.1 c2Cfg c2Hash "u1" "s1" 500 c2Data c2Out
      (some c2AdapterAfter) (by decide),
   success_responses_sanitized.2.1 c1Cfg (fun _ _ => true) "s3" 2500
      { email := "real@x.com", password := "pw" } c3SignInOut (some c1Adapter) (by decide),
   success_responses_sanitized.2.2 c1Cfg 5000 c3Token c3Sess (by decide)⟩

/-! Claim C4. -/

/-- Error returned by getSession when token verification fails. -/
def invalidTokenError : AuthError :=
  createError "INVALID_TOKEN" "Invalid or expired token" 401

/-- Error returned by getSession when the referenced user is gone. -/
def userNotFoundError : AuthError :=
  createError "USER_NOT_FOUND" "User not found" 404

/-- C4: with a database configured, getSession fails INVALID_TOKEN
exactly when verifyToken returns none (in particular whenever the exp
claim has passed), fails USER_NOT_FOUND when the token verifies but the
claimed user no longer exists, and on success returns the Session
rebuilt purely from the token claims plus the fresh user lookup. -/
theorem getSession_error_classification
    (cfg : AuthConfigR) (a : Adapter) (now : Nat) (t : Token)
    (hdb : cfg.database = some a) :
    (getSession cfg now t = .failure invalidTokenError ↔
       verifyToken cfg.jwtSecret now t = none) ∧
    (t.payload.exp ≤ now / 1000 → getSession cfg now t = .failure invalidTokenError) ∧
    (∀ p, verifyToken cfg.jwtSecret now t = some p →
       findUserById a.db p.userId = none →
       getSession cfg now t = .failure userNotFoundError) ∧
    (∀ p u, verifyToken cfg.jwtSecret now t = some p →
       findUserById a.db p.userId = some u →
       getSession cfg now t = .success
         { sessionId := p.sessionId, userId := u.id, user := sanitizeUser u
           expiresAt := p.exp * 1000, createdAt := p.iat * 1000, lastActivity := now }) := by
  refine ⟨?_, ?_, ?_, ?_⟩
  · cases hv : verifyToken cfg.jwtSecret now t with
    | none => simp [getSession, hv, invalidTokenError]
    | some p =>
        cases hf : findUserById a.db p.userId with
        | none =>
            simp [getSession, hv, hdb, hf, invalidTokenError, userNotFoundError, createError]
        | some u => simp [getSession, hv, hdb, hf]
  · intro hexp
    have hv : verifyToken cfg.jwtSecret now t = none := by
      unfold verifyToken
      rw [if_neg]
      intro hc
      omega
    simp [getSession, hv, invalidTokenError]
  · intro p hv hf
    simp [getSession, hv, hdb, hf, userNotFoundError]
  · intro p u hv hf
    simp [getSession, hv, hdb, hf]

/-- Fixture: a token whose exp claim (1 s) has passed at 5000 ms. -/
def c4ExpiredToken : Token :=
  { payload := { userId := "u1", sessionId := "s9", exp := 1, iat := 0 }
    secret := "sec" }

/-- Witness for C4: a valid token resolves to the rebuilt session and
an expired token yields INVALID_TOKEN, on the concrete c1Cfg store. -/
theorem getSession_error_classification_witness :
    getSession c1Cfg 5000 c3Token =
      .success
        { sessionId := c3Token.payload.sessionId, userId := c1User.id
          user := sanitizeUser c1User
          expiresAt := c3Token.payload.exp * 1000
          createdAt := c3Token.payload.iat * 1000, lastActivity := 5000 } ∧
    getSession c1Cfg 5000 c4ExpiredToken = .failure invalidTokenError :=
  ⟨(getSession_error_classification c1Cfg c1Adapter 5000 c3Token rfl).2.2.2
      c3Token.payload c1User (by decide) (by decide),
   (getSession_error_classification c1Cfg c1Adapter 5000 c4ExpiredToken rfl).2.1
      (by decide)⟩

/-! Claim C5. -/

/-- Fixture: a stored session record with id s1. -/
def c5Session : Session :=
  { sessionId := "s1", userId := "u1", user := c1UserClean
    expiresAt := 10000, createdAt := 0, lastActivity := 0 }

/-- Fixture: the Prisma adapter (delete throws on a missing record)
holding exactly the s1 session. -/
def c5PrismaAdapter : Adapter :=
  { db := { users := [c1User], sessions := [("s1", c5Session)] }
    hasCreateSession := true, hasDeleteSession := true, deleteSem := .throwIfMissing }

/-- Fixture config wired to the Prisma adapter. -/
def c5Cfg : AuthConfigR :=
  { bcryptRounds := 10, jwtSecret := "sec", sessionDuration := 1000
    database := some c5PrismaAdapter }

/-- Fixture: the config after the first successful signOut of s1. -/
def c5CfgAfter : AuthConfigR :=
  { c5Cfg with database := (signOut c5Cfg "s1").2 }

/-- C5, evaluated at the failing input: with the Prisma adapter the
first signOut of s1 succeeds, but the second signOut of the same id —
and any signOut of an id with no session record — returns success false
with the P2025 error the adapter lets escape, so signOut is not
idempotent as the spec requires. -/
theorem signOut_prisma_adapter_not_idempotent :
    (signOut c5Cfg "s1").1 = .success () ∧
    (signOut c5CfgAfter "s1").1 = .failure prismaP2025Error ∧
    (signOut c5Cfg "nosuch").1 = .failure prismaP2025Error := by
  refine ⟨by decide, by decide, by decide⟩

/-! Claim C6. -/

/-- C6: a channel with base 1000 ms and maximum 5 attempts whose
connection repeatedly closes without opening schedules exactly the
delays reconnectDelay * 2 ^ (attempt - 1) for attempts 1..5, that is
1000, 2000, 4000, 8000, 16000 ms, and the sixth close changes nothing:
no further reconnect is scheduled. -/
theorem backoff_sequence_and_cap :
    (wsRun wsInit (failTrace 5)).scheduled =
      [reconnectDelay * 2 ^ 0, reconnectDelay * 2 ^ 1, reconnectDelay * 2 ^ 2,
       reconnectDelay * 2 ^ 3, reconnectDelay * 2 ^ 4] ∧
    (wsRun wsInit (failTrace 5)).scheduled = [1000, 2000, 4000, 8000, 16000] ∧
    (wsRun wsInit (failTrace 5)).reconnectAttempts = maxReconnectAttempts ∧
    wsRun wsInit (failTrace 6) = wsRun wsInit (failTrace 5) := by decide

/-! Claim C7. -/

/-- C7, evaluated at the failing input: right after disconnect the
counter is zero, the socket reference is cleared and nothing is
scheduled, but the close event of the force-closed socket then fires
into the still-attached onclose handler, and with the counter freshly
reset attemptReconnect schedules a 1000 ms reconnect timer, with no
connect call in between. -/
theorem disconnect_close_event_schedules_reconnect :
    (wsRun wsInit [.connectCall, .socketOpen, .userDisconnect]).reconnectAttempts = 0 ∧
    (wsRun wsInit [.connectCall, .socketOpen, .userDisconnect]).wsAlive = false ∧
    (wsRun wsInit [.connectCall, .socketOpen, .userDisconnect]).scheduled = [] ∧
    (wsRun wsInit [.connectCall, .socketOpen, .userDisconnect, .socketClose]).scheduled =
      [reconnectDelay] := by decide

/-! Claim C8. -/

/-- Counterexample to C8 as stated: with the hard-coded 60000 ms check
interval, a session of duration 1000 ms created at t = 0 is already
expired at 1100 ms, yet the monitor has fired zero times by then, not
exactly once. -/
theorem monitor_not_fired_by_1100_counterexample :
    checkExpiry 1000 1100 = true ∧
    monitorFireTimes 0 1000 1100 = [] ∧
    (monitorFireTimes 0 1000 1100).length ≠ 1 := by decide

/-- C8 amended: for a session created at t = 0 with sessionDuration =
1000 ms, the periodic expiry check (fixed 60000 ms interval) fires
sign-out and onSessionExpired exactly once, at the first tick 60000 ms
after creation, not by 1100 ms. -/
theorem monitor_fires_once_at_first_interval_tick :
    monitorFireTimes 0 1000 59999 = [] ∧
    monitorFireTimes 0 1000 60000 = [monitorCheckInterval] ∧
    monitorFireTimes 0 1000 3600000 = [monitorCheckInterval] ∧
    (monitorFireTimes 0 1000 3600000).length = 1 := by decide

/-! Claim C9. -/

/-- Fixture: a browser environment where indexedDB.open errors and no
backend holds a token. -/
def c9Env : StorageEnv :=
  { idbOpenOk := false, idbStore := none, localStore := none, sessionStore := none }

/-- Fixture: SessionStorage on the indexedDB backend whose initial open
already failed (this.db never set). -/
def c9State : StorageState :=
  { kind := .indexedDBKind, dbOpen := false }

/-- C9, evaluated at the failing input: on the indexedDB backend with a
failing open, the async token read re-runs initIndexedDB and propagates
its rejection instead of degrading to no-token-found; only the
synchronous localStorage fallback degrades to none. -/
theorem indexedDB_open_failure_propagates :
    getTokenAsync c9Env c9State = .error "indexedDB open failed" ∧
    getTokenAsync c9Env c9State ≠ .ok none ∧
    getToken c9Env c9State = none := by
  refine ⟨rfl, fun h => ?_, rfl⟩
  simp [getTokenAsync, getIndexedDBToken, initIndexedDB, c9Env, c9State] at h

/-! Claim C10. -/

/-- C10: the reconnect attempt counter reaches zero only through the
socket open handler or an explicit disconnect; consequently, from the
exhausted state (counter at the maximum) an explicit connect whose
socket closes without ever opening schedules no reconnect at all and
leaves the counter exhausted. -/
theorem reconnect_counter_reset_only_open_or_disconnect :
    (∀ (s : WSState) (e : WSEvent),
       (wsStep s e).reconnectAttempts = 0 →
       s.reconnectAttempts = 0 ∨ e = .socketOpen ∨ e = .userDisconnect) ∧
    (∀ s : WSState, s.reconnectAttempts = maxReconnectAttempts →
       (wsRun s [.connectCall, .socketClose]).scheduled = s.scheduled ∧
       (wsRun s [.connectCall, .socketClose]).reconnectAttempts = maxReconnectAttempts) := by
  constructor
  · intro s e h
    cases e with
    | connectCall => left; simpa [wsStep] using h
    | socketOpen => right; left; rfl
    | socketClose =>
        left
        simp only [wsStep] at h
        split at h
        · unfold attemptReconnect at h
          split at h
          · simpa using h
          · simp at h
        · exact h
    | userDisconnect => right; right; rfl
  · intro s h
    simp [wsRun, wsStep, attemptReconnect, maxReconnectAttempts, h]

/-- Fixture: the channel state after the fifth failed attempt. -/
def c10Exhausted : WSState :=
  { wsAlive := false, closePending := false, reconnectAttempts := 5
    scheduled := [1000, 2000, 4000, 8000, 16000] }

/-- Witness for C10 at the concrete exhausted state and at a concrete
open event. -/
theorem reconnect_counter_reset_only_open_or_disconnect_witness :
    (wsInit.reconnectAttempts = 0 ∨ WSEvent.socketOpen = WSEvent.socketOpen ∨
       WSEvent.socketOpen = WSEvent.userDisconnect) ∧
    ((wsRun c10Exhausted [.connectCall, .socketClose]).scheduled = c10Exhausted.scheduled ∧
     (wsRun c10Exhausted [.connectCall, .socketClose]).reconnectAttempts =
       maxReconnectAttempts) :=
  ⟨reconnect_counter_reset_only_open_or_disconnect.1 wsInit .socketOpen rfl,
   reconnect_counter_reset_only_open_or_disconnect.2 c10Exhausted rfl⟩

end VistaAuth
